import Mathlib

/-!
Shallow embedding of the mani exam-management backend
(src/models.py, src/schemas.py, src/auth_utils.py, src/routes/auth.py,
src/routes/students.py, src/app.py).

Conventions of the embedding:
* SQLAlchemy rows become Lean structures; the database session becomes an
  explicit `DB` value holding the four tables as lists.  `query(..).filter(p).first()`
  becomes `List.find? p`, `query(..).all()` becomes the whole list, a committed
  insert appends to the list with a fresh autoincrement id, and an in-place
  `setattr` update rewrites the row with the matching primary key.
* `HTTPException(status, detail)` raised by a handler becomes
  `Except.error ⟨status, detail⟩`; a normal return becomes `Except.ok`.
* Timestamps (`datetime.utcnow()`) are seconds represented as `Nat`,
  threaded explicitly as a `now` argument.
* The jose JWT library is external; a signed token is modelled as its decoded
  payload paired with the signing secret (standing in for the HMAC signature):
  decoding with the wrong secret fails, decoding an expired token fails,
  otherwise the payload is recovered intact.
* The argon2 password primitive is external and opaque; it is modelled as an
  injective tagging function, with `verify` the exact inverse check.
* Numeric scores and grades (`Float` in the source) are never computed with,
  only stored and copied, so they are represented as `Int`.
-/

namespace Mani

/-! ## Data model (src/models.py) -/

structure Account where
  id : Nat
  contact : String
  fullname : String
  password_hash : String
  role : String
  created_at : Nat
deriving DecidableEq, Repr

structure Student where
  id : Nat
  student_number : String
  name : String
  email : Option String
  age : Option Nat
  grade : Option Int
  created_at : Nat
  account_id : Option Nat
deriving DecidableEq, Repr

structure Exam where
  id : Nat
  title : String
  total_marks : Nat
  created_at : Nat
deriving DecidableEq, Repr

structure Result where
  id : Nat
  student_id : Nat
  exam_id : Nat
  score : Int
  taken_at : Nat
deriving DecidableEq, Repr

/-- The backing store: the four tables of the relational database. -/
structure DB where
  accounts : List Account
  students : List Student
  exams : List Exam
  results : List Result
deriving DecidableEq, Repr

structure HTTPException where
  status_code : Nat
  detail : String
deriving DecidableEq, Repr

/-! ## Request/response schemas (src/schemas.py) -/

structure UserRegister where
  contact : String
  fullname : String
  password : String
  role : String
deriving DecidableEq, Repr

structure UserLogin where
  contact : String
  password : String
deriving DecidableEq, Repr

structure StudentCreate where
  student_number : String
  name : String
  email : Option String
  age : Nat
  grade : Option Int
deriving DecidableEq, Repr

structure ExamCreate where
  title : String
  total_marks : Nat
deriving DecidableEq, Repr

structure ResultCreate where
  student_id : Nat
  exam_id : Nat
  score : Int
deriving DecidableEq, Repr

structure ResultOut where
  id : Nat
  student_id : Nat
  student_name : String
  exam_id : Nat
  exam_title : String
  score : Int
deriving DecidableEq, Repr

/-! ## JWT model (jose `jwt.encode` / `jwt.decode`, external library) -/

/-- The claims every token issued by this codebase carries:
`sub` (contact), `user_id`, `role`, `exp`. -/
structure Payload where
  sub : String
  user_id : Nat
  role : String
  exp : Nat
deriving DecidableEq, Repr

/-- A signed token: the payload together with the signing secret, which stands
in for the HMAC signature over the payload. -/
structure Jwt where
  payload : Payload
  sig : String
deriving DecidableEq, Repr

def jwt_encode (payload : Payload) (secret : String) : Jwt :=
  ⟨payload, secret⟩

/-- Models `jose.jwt.decode(token, secret, algorithms=[...])`: checks the
signature against the expected secret and rejects expired tokens (a token
whose `exp` is not in the future is expired). -/
def jwt_decode (t : Jwt) (secret : String) (now : Nat) : Except String Payload :=
  if t.sig ≠ secret then .error "Signature verification failed."
  else if t.payload.exp ≤ now then .error "Signature has expired."
  else .ok t.payload

/-- The response body of register/login; the token field holds the issued JWT. -/
structure TokenResponse where
  access_token : Jwt
  token_type : String
  role : String
  user_id : Nat
deriving DecidableEq, Repr

/-! ## Password hashing (passlib argon2 CryptContext, external library) -/

/-- Models `pwd_context.hash`: an opaque one-way transform. -/
def pwd_hash (p : String) : String := "argon2-" ++ p

/-- Models `pwd_context.verify` (src/routes/auth.py `verify_password`). -/
def verify_password (plain hashed : String) : Bool :=
  hashed == pwd_hash plain

/-! ## Shared helpers -/

/-- Autoincrement primary key for a committed insert: one more than the
largest id in the table. -/
def freshId (ids : List Nat) : Nat := ids.foldr max 0 + 1

/-- Renders an `Optional[str]` the way a Python f-string does. -/
def optionalStr : Option String → String
  | some s => s
  | none => "None"

def ACCESS_TOKEN_EXPIRE_MINUTES : Nat := 30

/-! ## Token issuing (src/auth_utils.py `create_access_token`; the dict-based
variants in src/app.py and src/routes/auth.py build the same payload). -/

def create_access_token (user_id : Nat) (contact : String) (role : String)
    (expires_delta : Option Nat) (now : Nat) (secret : String) : Jwt :=
  jwt_encode
    { sub := contact, user_id := user_id, role := role,
      exp := now + expires_delta.getD (ACCESS_TOKEN_EXPIRE_MINUTES * 60) }
    secret

/-! ## Auth routes (src/routes/auth.py) -/

/-- src/routes/auth.py `hash_password`: rejects passwords shorter than 6
characters (the emptiness test is subsumed by the length test). -/
def hash_password (password : String) : Except HTTPException String :=
  if password.length < 6 then
    .error ⟨400, "Password must be at least 6 characters"⟩
  else .ok (pwd_hash password)

/-- src/routes/auth.py `register`.  Returns the response (or error) together
with the database as left by the flow; every failure happens before the first
insert, so on error the store is returned unchanged. -/
def register (data : UserRegister) (now : Nat) (secret : String) (db : DB) :
    Except HTTPException TokenResponse × DB :=
  if !(data.role == "student" || data.role == "teacher") then
    (.error ⟨400, "Role must be \u0027student\u0027 or \u0027teacher\u0027"⟩, db)
  else if (db.accounts.find? (fun a => a.contact == data.contact)).isSome then
    (.error ⟨400, "Contact already registered"⟩, db)
  else
    match hash_password data.password with
    | .error e => (.error e, db)
    | .ok h =>
      let account : Account :=
        { id := freshId (db.accounts.map (fun a => a.id)), contact := data.contact,
          fullname := data.fullname.trim, password_hash := h, role := data.role,
          created_at := now }
      let db1 : DB := { db with accounts := db.accounts ++ [account] }
      let db2 : DB :=
        if data.role == "student" then
          { db1 with students := db1.students ++
              [{ id := freshId (db1.students.map (fun s => s.id)),
                 student_number := account.contact, name := account.fullname,
                 email := some account.contact, age := none, grade := none,
                 created_at := now, account_id := some account.id }] }
        else db1
      (.ok { access_token := create_access_token account.id account.contact
               account.role none now secret,
             token_type := "bearer", role := account.role, user_id := account.id },
       db2)

/-- src/routes/auth.py `login`. -/
def login (data : UserLogin) (now : Nat) (secret : String) (db : DB) :
    Except HTTPException TokenResponse :=
  if data.contact == "" || data.password == "" then
    .error ⟨400, "Contact and password are required"⟩
  else
    match db.accounts.find? (fun a => a.contact == data.contact) with
    | none => .error ⟨401, "Invalid credentials"⟩
    | some account =>
      if !(verify_password data.password account.password_hash) then
        .error ⟨401, "Invalid credentials"⟩
      else
        .ok { access_token := create_access_token account.id account.contact
                account.role none now secret,
              token_type := "bearer", role := account.role, user_id := account.id }

/-! ## Access guards -/

/-- src/app.py `get_current_account`: decode the bearer token, reject a falsy
`user_id` (0 plays the role of Python falsiness for the int claim), then
require the referenced account to still exist. -/
def get_current_account (token : Jwt) (secret : String) (now : Nat) (db : DB) :
    Except HTTPException Account :=
  match jwt_decode token secret now with
  | .error _ => .error ⟨401, "Invalid token"⟩
  | .ok payload =>
    if payload.user_id == 0 then .error ⟨401, "Invalid token"⟩
    else
      match db.accounts.find? (fun a => a.id == payload.user_id) with
      | none => .error ⟨401, "Account not found"⟩
      | some account => .ok account

/-- src/auth_utils.py `get_current_account`: the stricter variant, which also
requires the claims to be truthy and re-checks the contact against the store. -/
def auth_utils_get_current_account (token : Jwt) (secret : String) (now : Nat)
    (db : DB) : Except HTTPException Account :=
  match jwt_decode token secret now with
  | .error _ => .error ⟨401, "Invalid token"⟩
  | .ok payload =>
    if payload.sub == "" || payload.user_id == 0 || payload.role == "" then
      .error ⟨401, "Invalid token payload"⟩
    else
      match db.accounts.find?
          (fun a => a.id == payload.user_id && a.contact == payload.sub) with
      | none => .error ⟨401, "Account not found"⟩
      | some account => .ok account

/-! ## Student handlers (src/app.py) -/

/-- src/app.py `get_students`. -/
def get_students (current_user : Account) (db : DB) : List Student :=
  if current_user.role == "student" then
    match db.students.find? (fun s => s.account_id == some current_user.id) with
    | some student => [student]
    | none => []
  else db.students

/-- src/app.py `add_student` (this is the routed variant: the app only mounts
the handlers of app.py plus the auth router). -/
def add_student (current_user : Account) (student : StudentCreate) (now : Nat)
    (db : DB) : Except HTTPException (Student × DB) :=
  if !(["admin", "teacher"].contains current_user.role) then
    .error ⟨403, "No permission"⟩
  else
    match db.accounts.find? (fun a => some a.contact == student.email) with
    | none =>
      .error ⟨400, "No account found for " ++ optionalStr student.email ++
        ". Please create the account first."⟩
    | some account =>
      let new_student : Student :=
        { id := freshId (db.students.map (fun s => s.id)),
          student_number := student.student_number, name := student.name,
          email := student.email, age := some student.age, grade := student.grade,
          created_at := now, account_id := some account.id }
      .ok (new_student, { db with students := db.students ++ [new_student] })

/-- Modelled from src/routes/students.py `add_student` (the unrouted variant,
kept for comparison with the spec sentence about optional account links). -/
def routes_add_student (role : String) (student : StudentCreate) (now : Nat)
    (db : DB) : Except HTTPException (Student × DB) :=
  if role ≠ "admin" then
    .error ⟨403, "Only admin can add students"⟩
  else
    let new_student : Student :=
      { id := freshId (db.students.map (fun s => s.id)),
        student_number := student.student_number, name := student.name,
        email := student.email, age := some student.age, grade := student.grade,
        created_at := now, account_id := none }
    .ok (new_student, { db with students := db.students ++ [new_student] })

/-- src/app.py `update_student`: looks the row up, checks the role, then
copies exactly the `StudentCreate` fields onto it. -/
def update_student (current_user : Account) (student_id : Nat)
    (student : StudentCreate) (db : DB) : Except HTTPException (Student × DB) :=
  match db.students.find? (fun s => s.id == student_id) with
  | none => .error ⟨404, "Student not found"⟩
  | some s =>
    if !(["admin", "teacher"].contains current_user.role) then
      .error ⟨403, "No permission"⟩
    else
      let s2 : Student :=
        { s with
          student_number := student.student_number, name := student.name,
          email := student.email, age := some student.age, grade := student.grade }
      .ok (s2,
        { db with
          students := db.students.map (fun t => if t.id == student_id then s2 else t) })

/-- src/app.py `delete_student`. -/
def delete_student (current_user : Account) (student_id : Nat) (db : DB) :
    Except HTTPException (String × DB) :=
  match db.students.find? (fun s => s.id == student_id) with
  | none => .error ⟨404, "Student not found"⟩
  | some _ =>
    if !(["admin", "teacher"].contains current_user.role) then
      .error ⟨403, "No permission"⟩
    else
      .ok ("Student deleted",
        { db with students := db.students.filter (fun t => !(t.id == student_id)) })

/-! ## Exam handlers (src/app.py) -/

/-- src/app.py `get_exams`. -/
def get_exams (_current_user : Account) (db : DB) : List Exam :=
  db.exams

/-- src/app.py `add_exam`. -/
def add_exam (current_user : Account) (exam : ExamCreate) (now : Nat) (db : DB) :
    Except HTTPException (Exam × DB) :=
  if !(["admin", "teacher"].contains current_user.role) then
    .error ⟨403, "No permission"⟩
  else
    let new_exam : Exam :=
      { id := freshId (db.exams.map (fun e => e.id)), title := exam.title,
        total_marks := exam.total_marks, created_at := now }
    .ok (new_exam, { db with exams := db.exams ++ [new_exam] })

/-- src/app.py `update_exam`. -/
def update_exam (current_user : Account) (exam_id : Nat) (exam : ExamCreate)
    (db : DB) : Except HTTPException (Exam × DB) :=
  match db.exams.find? (fun e => e.id == exam_id) with
  | none => .error ⟨404, "Exam not found"⟩
  | some e =>
    if !(["admin", "teacher"].contains current_user.role) then
      .error ⟨403, "No permission"⟩
    else
      let e2 : Exam := { e with title := exam.title, total_marks := exam.total_marks }
      .ok (e2,
        { db with
          exams := db.exams.map (fun t => if t.id == exam_id then e2 else t) })

/-- src/app.py `delete_exam`. -/
def delete_exam (current_user : Account) (exam_id : Nat) (db : DB) :
    Except HTTPException (String × DB) :=
  match db.exams.find? (fun e => e.id == exam_id) with
  | none => .error ⟨404, "Exam not found"⟩
  | some _ =>
    if !(["admin", "teacher"].contains current_user.role) then
      .error ⟨403, "No permission"⟩
    else
      .ok ("Exam deleted",
        { db with exams := db.exams.filter (fun t => !(t.id == exam_id)) })

/-! ## Result handlers (src/app.py) -/

/-- The response row built by `get_results`: the joined student name and exam
title, with "Unknown" when the relationship resolves to nothing. -/
def result_out (db : DB) (r : Result) : ResultOut :=
  { id := r.id, student_id := r.student_id,
    student_name :=
      match db.students.find? (fun s => s.id == r.student_id) with
      | some s => s.name
      | none => "Unknown",
    exam_id := r.exam_id,
    exam_title :=
      match db.exams.find? (fun e => e.id == r.exam_id) with
      | some e => e.title
      | none => "Unknown",
    score := r.score }

/-- src/app.py `get_results`. -/
def get_results (current_user : Account) (db : DB) : List ResultOut :=
  if current_user.role == "student" then
    match db.students.find? (fun s => s.account_id == some current_user.id) with
    | none => []
    | some student =>
      (db.results.filter (fun r => r.student_id == student.id)).map (result_out db)
  else db.results.map (result_out db)

/-- src/app.py `add_result`: role check, then student existence, then exam
existence, then the insert. -/
def add_result (current_user : Account) (result : ResultCreate) (now : Nat)
    (db : DB) : Except HTTPException (ResultOut × DB) :=
  if !(["admin", "teacher"].contains current_user.role) then
    .error ⟨403, "No permission"⟩
  else
    match db.students.find? (fun s => s.id == result.student_id) with
    | none => .error ⟨404, "Student not found"⟩
    | some student =>
      match db.exams.find? (fun e => e.id == result.exam_id) with
      | none => .error ⟨404, "Exam not found"⟩
      | some exam =>
        let new_result : Result :=
          { id := freshId (db.results.map (fun r => r.id)),
            student_id := student.id, exam_id := exam.id, score := result.score,
            taken_at := now }
        .ok ({ id := new_result.id, student_id := new_result.student_id,
               student_name := student.name, exam_id := new_result.exam_id,
               exam_title := exam.title, score := new_result.score },
             { db with results := db.results ++ [new_result] })

/-- src/app.py `update_result`: result existence, then role, then student
existence, then exam existence, then the field copy. -/
def update_result (current_user : Account) (result_id : Nat)
    (result : ResultCreate) (db : DB) : Except HTTPException (ResultOut × DB) :=
  match db.results.find? (fun r => r.id == result_id) with
  | none => .error ⟨404, "Result not found"⟩
  | some r =>
    if !(["admin", "teacher"].contains current_user.role) then
      .error ⟨403, "No permission"⟩
    else
      match db.students.find? (fun s => s.id == result.student_id) with
      | none => .error ⟨404, "Student not found"⟩
      | some student =>
        match db.exams.find? (fun e => e.id == result.exam_id) with
        | none => .error ⟨404, "Exam not found"⟩
        | some exam =>
          let r2 : Result :=
            { r with
              student_id := student.id, exam_id := exam.id, score := result.score }
          .ok ({ id := r2.id, student_id := r2.student_id,
                 student_name := student.name, exam_id := r2.exam_id,
                 exam_title := exam.title, score := r2.score },
               { db with
                 results := db.results.map
                   (fun t => if t.id == result_id then r2 else t) })

/-- src/app.py `delete_result`. -/
def delete_result (current_user : Account) (result_id : Nat) (db : DB) :
    Except HTTPException (String × DB) :=
  match db.results.find? (fun r => r.id == result_id) with
  | none => .error ⟨404, "Result not found"⟩
  | some _ =>
    if !(["admin", "teacher"].contains current_user.role) then
      .error ⟨403, "No permission"⟩
    else
      .ok ("Result deleted",
        { db with results := db.results.filter (fun t => !(t.id == result_id)) })

/-! ## Full protected endpoints: FastAPI resolves the `get_current_account`
dependency first, then invokes the handler with the produced account. -/

def bindGuard {α : Type} (token : Jwt) (secret : String) (now : Nat) (db : DB)
    (handler : Account → Except HTTPException α) : Except HTTPException α :=
  match get_current_account token secret now db with
  | .error e => .error e
  | .ok u => handler u

def get_students_endpoint (token : Jwt) (secret : String) (now : Nat) (db : DB) :
    Except HTTPException (List Student) :=
  bindGuard token secret now db (fun u => .ok (get_students u db))

def add_student_endpoint (token : Jwt) (secret : String) (now : Nat)
    (student : StudentCreate) (db : DB) : Except HTTPException (Student × DB) :=
  bindGuard token secret now db (fun u => add_student u student now db)

def update_student_endpoint (token : Jwt) (secret : String) (now : Nat)
    (student_id : Nat) (student : StudentCreate) (db : DB) :
    Except HTTPException (Student × DB) :=
  bindGuard token secret now db (fun u => update_student u student_id student db)

def delete_student_endpoint (token : Jwt) (secret : String) (now : Nat)
    (student_id : Nat) (db : DB) : Except HTTPException (String × DB) :=
  bindGuard token secret now db (fun u => delete_student u student_id db)

def get_exams_endpoint (token : Jwt) (secret : String) (now : Nat) (db : DB) :
    Except HTTPException (List Exam) :=
  bindGuard token secret now db (fun u => .ok (get_exams u db))

def add_exam_endpoint (token : Jwt) (secret : String) (now : Nat)
    (exam : ExamCreate) (db : DB) : Except HTTPException (Exam × DB) :=
  bindGuard token secret now db (fun u => add_exam u exam now db)

def update_exam_endpoint (token : Jwt) (secret : String) (now : Nat)
    (exam_id : Nat) (exam : ExamCreate) (db : DB) :
    Except HTTPException (Exam × DB) :=
  bindGuard token secret now db (fun u => update_exam u exam_id exam db)

def delete_exam_endpoint (token : Jwt) (secret : String) (now : Nat)
    (exam_id : Nat) (db : DB) : Except HTTPException (String × DB) :=
  bindGuard token secret now db (fun u => delete_exam u exam_id db)

def get_results_endpoint (token : Jwt) (secret : String) (now : Nat) (db : DB) :
    Except HTTPException (List ResultOut) :=
  bindGuard token secret now db (fun u => .ok (get_results u db))

def add_result_endpoint (token : Jwt) (secret : String) (now : Nat)
    (result : ResultCreate) (db : DB) : Except HTTPException (ResultOut × DB) :=
  bindGuard token secret now db (fun u => add_result u result now db)

def update_result_endpoint (token : Jwt) (secret : String) (now : Nat)
    (result_id : Nat) (result : ResultCreate) (db : DB) :
    Except HTTPException (ResultOut × DB) :=
  bindGuard token secret now db (fun u => update_result u result_id result db)

def delete_result_endpoint (token : Jwt) (secret : String) (now : Nat)
    (result_id : Nat) (db : DB) : Except HTTPException (String × DB) :=
  bindGuard token secret now db (fun u => delete_result u result_id db)

/-! ## Concrete fixtures used to exercise the theorems on closed inputs -/

def adminAcct : Account :=
  ⟨1, "admin@example.com", "Administrator", pwd_hash "admin123", "admin", 0⟩

def studAcct : Account :=
  ⟨2, "s1@x.com", "Ann", pwd_hash "pass123", "student", 0⟩

def teachAcct : Account :=
  ⟨3, "t1@x.com", "Tom", pwd_hash "teach123", "teacher", 0⟩

def stud1 : Student :=
  ⟨1, "s1@x.com", "Ann", some "s1@x.com", none, none, 0, some 2⟩

def exam1 : Exam := ⟨1, "Midterm", 100, 0⟩

def res1 : Result := ⟨1, 1, 1, 88, 0⟩

def res2 : Result := ⟨2, 7, 1, 50, 0⟩

def db0 : DB := ⟨[adminAcct, studAcct, teachAcct], [stud1], [exam1], [res1, res2]⟩

def dbEmpty : DB := ⟨[], [], [], []⟩

def sIn0 : StudentCreate := ⟨"S-100", "New Student", some "nobody@x.com", 20, none⟩

def eIn0 : ExamCreate := ⟨"Final", 50⟩

def rIn0 : ResultCreate := ⟨1, 1, 75⟩

def tokenW : Jwt := create_access_token 9 "ghost@x.com" "student" (some 60) 0 "k"

/-! ## Helper lemmas -/

/-- `find?` returns the unique element satisfying the predicate. -/
theorem find?_of_unique {α : Type} (p : α → Bool) (l : List α) (s : α)
    (hmem : s ∈ l) (hp : p s = true)
    (huniq : ∀ t ∈ l, p t = true → t = s) : l.find? p = some s := by
  induction l with
  | nil => cases hmem
  | cons x xs ih =>
    rcases List.mem_cons.mp hmem with hx | hx
    · subst hx
      simp [List.find?, hp]
    · by_cases hpx : p x = true
      · have hxs := huniq x (List.mem_cons_self x xs) hpx
        subst hxs
        simp [List.find?, hp]
      · rw [List.find?_cons_of_neg _ hpx]
        exact ih hx (fun t ht hpt => huniq t (List.mem_cons_of_mem _ ht) hpt)

/-! ## Claim theorems -/

/-- C9: a token issued by `create_access_token` embeds exactly the claims
`sub = contact`, `user_id = account id`, `role`, `exp = now + ttl`, and
decoding it before expiry with the same secret succeeds and recovers exactly
those claims. -/
theorem token_issue_verify_round_trip
    (user_id : Nat) (contact role : String) (ttl now now2 : Nat)
    (secret : String) (h : now2 < now + ttl) :
    (create_access_token user_id contact role (some ttl) now secret).payload
      = { sub := contact, user_id := user_id, role := role, exp := now + ttl }
    ∧ jwt_decode (create_access_token user_id contact role (some ttl) now secret)
        secret now2
      = .ok { sub := contact, user_id := user_id, role := role, exp := now + ttl } := by
  refine ⟨rfl, ?_⟩
  simp [create_access_token, jwt_encode, jwt_decode, Nat.not_le.mpr h]

/-- C9 witness: concrete issue/verify round trip. -/
theorem token_issue_verify_round_trip_witness :
    (create_access_token 2 "s1@x.com" "student" (some 60) 100 "secret").payload
      = { sub := "s1@x.com", user_id := 2, role := "student", exp := 160 }
    ∧ jwt_decode (create_access_token 2 "s1@x.com" "student" (some 60) 100 "secret")
        "secret" 150
      = .ok { sub := "s1@x.com", user_id := 2, role := "student", exp := 160 } :=
  token_issue_verify_round_trip 2 "s1@x.com" "student" 60 100 150 "secret" (by decide)

/-- C5: a login with an unknown contact and a login with a known contact but a
password that fails verification both fail with 401 "Invalid credentials",
and the two responses are identical. -/
theorem login_uniform_invalid_credentials
    (now : Nat) (secret : String) (db : DB)
    (c1 p1 : String) (hc1 : c1 ≠ "") (hp1 : p1 ≠ "")
    (hunknown : ∀ a ∈ db.accounts, a.contact ≠ c1)
    (a : Account) (c2 p2 : String) (hc2 : c2 ≠ "") (hp2 : p2 ≠ "")
    (hfound : db.accounts.find? (fun x => x.contact == c2) = some a)
    (hbad : verify_password p2 a.password_hash = false) :
    login ⟨c1, p1⟩ now secret db = .error ⟨401, "Invalid credentials"⟩
    ∧ login ⟨c2, p2⟩ now secret db = .error ⟨401, "Invalid credentials"⟩
    ∧ login ⟨c1, p1⟩ now secret db = login ⟨c2, p2⟩ now secret db := by
  have hfind : db.accounts.find? (fun x => x.contact == c1) = none := by
    rw [List.find?_eq_none]
    intro x hx
    simpa using hunknown x hx
  have h1 : login ⟨c1, p1⟩ now secret db = .error ⟨401, "Invalid credentials"⟩ := by
    simp [login, hfind, hc1, hp1]
  have h2 : login ⟨c2, p2⟩ now secret db = .error ⟨401, "Invalid credentials"⟩ := by
    simp [login, hfound, hc2, hp2, hbad]
  exact ⟨h1, h2, h1.trans h2.symm⟩

/-- C5 witness: unknown contact vs wrong password on the concrete store. -/
theorem login_uniform_invalid_credentials_witness :
    login ⟨"ghost@x.com", "pw1234"⟩ 0 "k" db0 = .error ⟨401, "Invalid credentials"⟩
    ∧ login ⟨"s1@x.com", "wrongpw"⟩ 0 "k" db0 = .error ⟨401, "Invalid credentials"⟩
    ∧ login ⟨"ghost@x.com", "pw1234"⟩ 0 "k" db0 = login ⟨"s1@x.com", "wrongpw"⟩ 0 "k" db0 :=
  login_uniform_invalid_credentials 0 "k" db0 "ghost@x.com" "pw1234"
    (by decide) (by decide) (by decide)
    studAcct "s1@x.com" "wrongpw" (by decide) (by decide) (by decide) (by decide)

/-- C1: a validly signed, unexpired token whose referenced account id is
absent from the store is rejected by both access-guard variants with 401
"Account not found", and hence by every protected endpoint. -/
theorem deleted_account_token_rejected_everywhere
    (token : Jwt) (secret : String) (now : Nat) (db : DB)
    (student : StudentCreate) (exam : ExamCreate) (result : ResultCreate)
    (sid eid rid : Nat)
    (hsig : token.sig = secret) (hexp : now < token.payload.exp)
    (huid : token.payload.user_id ≠ 0)
    (hsub : token.payload.sub ≠ "") (hrole : token.payload.role ≠ "")
    (habsent : ∀ a ∈ db.accounts, a.id ≠ token.payload.user_id) :
    get_current_account token secret now db = .error ⟨401, "Account not found"⟩
    ∧ auth_utils_get_current_account token secret now db
        = .error ⟨401, "Account not found"⟩
    ∧ get_students_endpoint token secret now db = .error ⟨401, "Account not found"⟩
    ∧ add_student_endpoint token secret now student db
        = .error ⟨401, "Account not found"⟩
    ∧ update_student_endpoint token secret now sid student db
        = .error ⟨401, "Account not found"⟩
    ∧ delete_student_endpoint token secret now sid db
        = .error ⟨401, "Account not found"⟩
    ∧ get_exams_endpoint token secret now db = .error ⟨401, "Account not found"⟩
    ∧ add_exam_endpoint token secret now exam db = .error ⟨401, "Account not found"⟩
    ∧ update_exam_endpoint token secret now eid exam db
        = .error ⟨401, "Account not found"⟩
    ∧ delete_exam_endpoint token secret now eid db
        = .error ⟨401, "Account not found"⟩
    ∧ get_results_endpoint token secret now db = .error ⟨401, "Account not found"⟩
    ∧ add_result_endpoint token secret now result db
        = .error ⟨401, "Account not found"⟩
    ∧ update_result_endpoint token secret now rid result db
        = .error ⟨401, "Account not found"⟩
    ∧ delete_result_endpoint token secret now rid db
        = .error ⟨401, "Account not found"⟩ := by
  have hdec : jwt_decode token secret now = .ok token.payload := by
    simp [jwt_decode, hsig, Nat.not_le.mpr hexp]
  have hnone : db.accounts.find? (fun a => a.id == token.payload.user_id) = none := by
    rw [List.find?_eq_none]
    intro a ha
    simpa using habsent a ha
  have hnone2 : db.accounts.find?
      (fun a => a.id == token.payload.user_id && a.contact == token.payload.sub)
      = none := by
    rw [List.find?_eq_none]
    intro a ha
    simp [habsent a ha]
  have hguard : get_current_account token secret now db
      = .error ⟨401, "Account not found"⟩ := by
    simp [get_current_account, hdec, huid, hnone]
  have hguard2 : auth_utils_get_current_account token secret now db
      = .error ⟨401, "Account not found"⟩ := by
    simp [auth_utils_get_current_account, hdec, huid, hsub, hrole, hnone2]
  have hbind : ∀ {α : Type} (h : Account → Except HTTPException α),
      bindGuard token secret now db h = .error ⟨401, "Account not found"⟩ := by
    intro α h
    simp [bindGuard, hguard]
  exact ⟨hguard, hguard2, hbind _, hbind _, hbind _, hbind _, hbind _, hbind _,
    hbind _, hbind _, hbind _, hbind _, hbind _, hbind _⟩

/-- C1 witness: a token for account id 9, which is absent from the concrete
store, is rejected everywhere even though its signature is valid and it is
presented before expiry. -/
theorem deleted_account_token_rejected_everywhere_witness :
    get_current_account tokenW "k" 10 db0 = .error ⟨401, "Account not found"⟩
    ∧ auth_utils_get_current_account tokenW "k" 10 db0
        = .error ⟨401, "Account not found"⟩
    ∧ get_students_endpoint tokenW "k" 10 db0 = .error ⟨401, "Account not found"⟩
    ∧ add_student_endpoint tokenW "k" 10 sIn0 db0 = .error ⟨401, "Account not found"⟩
    ∧ update_student_endpoint tokenW "k" 10 1 sIn0 db0
        = .error ⟨401, "Account not found"⟩
    ∧ delete_student_endpoint tokenW "k" 10 1 db0 = .error ⟨401, "Account not found"⟩
    ∧ get_exams_endpoint tokenW "k" 10 db0 = .error ⟨401, "Account not found"⟩
    ∧ add_exam_endpoint tokenW "k" 10 eIn0 db0 = .error ⟨401, "Account not found"⟩
    ∧ update_exam_endpoint tokenW "k" 10 1 eIn0 db0 = .error ⟨401, "Account not found"⟩
    ∧ delete_exam_endpoint tokenW "k" 10 1 db0 = .error ⟨401, "Account not found"⟩
    ∧ get_results_endpoint tokenW "k" 10 db0 = .error ⟨401, "Account not found"⟩
    ∧ add_result_endpoint tokenW "k" 10 rIn0 db0 = .error ⟨401, "Account not found"⟩
    ∧ update_result_endpoint tokenW "k" 10 1 rIn0 db0
        = .error ⟨401, "Account not found"⟩
    ∧ delete_result_endpoint tokenW "k" 10 1 db0
        = .error ⟨401, "Account not found"⟩ :=
  deleted_account_token_rejected_everywhere tokenW "k" 10 db0 sIn0 eIn0 rIn0 1 1 1
    rfl (by decide) (by decide) (by decide) (by decide) (by decide)

/-- C2: listing results as a student returns exactly the result rows whose
student_id is the id of the student record linked to the account (empty when
no student record is linked); an admin or teacher sees every result row. -/
theorem get_results_role_scoping (current_user : Account) (db : DB) :
    (current_user.role = "student" →
      ((∀ t ∈ db.students, t.account_id ≠ some current_user.id) →
        get_results current_user db = [])
      ∧ ∀ s, s ∈ db.students → s.account_id = some current_user.id →
          (∀ t ∈ db.students, t.account_id = some current_user.id → t = s) →
          get_results current_user db
            = (db.results.filter (fun r => r.student_id == s.id)).map (result_out db))
    ∧ ((current_user.role = "admin" ∨ current_user.role = "teacher") →
        get_results current_user db = db.results.map (result_out db)) := by
  constructor
  · intro hrole
    constructor
    · intro hnolink
      have hfind : db.students.find?
          (fun s => s.account_id == some current_user.id) = none := by
        rw [List.find?_eq_none]
        intro t ht
        simpa using hnolink t ht
      simp [get_results, hrole, hfind]
    · intro s hmem hlink huniq
      have hfind : db.students.find?
          (fun t => t.account_id == some current_user.id) = some s := by
        apply find?_of_unique _ _ _ hmem (by simpa using hlink)
        intro t ht hpt
        exact huniq t ht (by simpa using hpt)
      simp [get_results, hrole, hfind]
  · intro hrole
    have hne : (current_user.role == "student") = false := by
      rcases hrole with h | h <;> simp [h]
    simp [get_results, hne]

/-- C2 witness: the concrete student sees only the result for their linked
student row; the concrete admin sees both stored results. -/
theorem get_results_role_scoping_witness :
    get_results studAcct db0
      = (db0.results.filter (fun r => r.student_id == stud1.id)).map (result_out db0)
    ∧ get_results adminAcct db0 = db0.results.map (result_out db0) :=
  ⟨((get_results_role_scoping studAcct db0).1 (by decide)).2 stud1
      (by decide) (by decide) (by decide),
   (get_results_role_scoping adminAcct db0).2 (Or.inl (by decide))⟩

/-- C3 counterexample: the routed POST /students handler rejects a valid
student input whose email has no backing account with 400, so direct creation
by an admin does require an existing account and never leaves the link
absent. -/
theorem add_student_unlinked_creation_cex :
    add_student adminAcct sIn0 5 db0
      = .error ⟨400,
          "No account found for nobody@x.com. Please create the account first."⟩ := by
  rfl

/-- C3 amended: direct creation of a student by an admin or teacher requires
an already-existing account whose contact equals the student's email (else it
fails with 400), and on success the created student is always linked to that
account. -/
theorem add_student_requires_linked_account
    (current_user : Account) (student : StudentCreate) (now : Nat) (db : DB)
    (hrole : (["admin", "teacher"].contains current_user.role) = true) :
    (db.accounts.find? (fun a => some a.contact == student.email) = none →
      add_student current_user student now db
        = .error ⟨400, "No account found for " ++ optionalStr student.email ++
            ". Please create the account first."⟩)
    ∧ ∀ account,
        db.accounts.find? (fun a => some a.contact == student.email) = some account →
        ∃ ns db2, add_student current_user student now db = .ok (ns, db2)
          ∧ ns.account_id = some account.id
          ∧ db2.students = db.students ++ [ns] := by
  constructor
  · intro hnone
    unfold add_student
    rw [hrole]
    simp [hnone]
  · intro account hsome
    have h : add_student current_user student now db
        = .ok (⟨freshId (db.students.map (fun s => s.id)), student.student_number,
                student.name, student.email, some student.age, student.grade,
                now, some account.id⟩,
               { db with students := db.students ++
                   [⟨freshId (db.students.map (fun s => s.id)), student.student_number,
                     student.name, student.email, some student.age, student.grade,
                     now, some account.id⟩] }) := by
      unfold add_student
      rw [hrole]
      simp [hsome]
    exact ⟨_, _, h, rfl, rfl⟩

/-- C3 amended witness: with a backing account present, the admin's creation
succeeds and the created student is linked to that account. -/
theorem add_student_requires_linked_account_witness :
    ∃ ns db2,
      add_student adminAcct ⟨"S-200", "Tom As Student", some "t1@x.com", 21, none⟩ 5 db0
        = .ok (ns, db2)
      ∧ ns.account_id = some teachAcct.id
      ∧ db2.students = db0.students ++ [ns] :=
  (add_student_requires_linked_account adminAcct
      ⟨"S-200", "Tom As Student", some "t1@x.com", 21, none⟩ 5 db0 (by decide)).2
    teachAcct (by decide)

/-- C4: a successful registration with role student appends one account and
one student row whose student_number and email are the registered contact,
whose name is the trimmed fullname, and whose account_id is the new account's
id; a successful registration with role teacher appends no student row. -/
theorem register_student_row_creation
    (data : UserRegister) (now : Nat) (secret : String) (db : DB)
    (hnodup : db.accounts.find? (fun a => a.contact == data.contact) = none)
    (hpw : ¬ data.password.length < 6) :
    (data.role = "student" →
      ∃ a : Account,
        (register data now secret db).2.accounts = db.accounts ++ [a]
        ∧ (register data now secret db).2.students = db.students ++
            [{ id := freshId (db.students.map (fun s => s.id)),
               student_number := data.contact, name := data.fullname.trim,
               email := some data.contact, age := none, grade := none,
               created_at := now, account_id := some a.id }])
    ∧ (data.role = "teacher" →
        (register data now secret db).2.students = db.students) := by
  constructor
  · intro h
    refine ⟨{ id := freshId (db.accounts.map (fun a => a.id)), contact := data.contact,
              fullname := data.fullname.trim, password_hash := pwd_hash data.password,
              role := data.role, created_at := now }, ?_, ?_⟩ <;>
      · unfold register
        simp [h, hnodup, hash_password, hpw]
  · intro h
    unfold register
    simp [h, hnodup, hash_password, hpw]

/-- C4 witness: a concrete student registration appends the linked student
row built from the contact and trimmed fullname. -/
theorem register_student_row_creation_witness :
    ∃ a : Account,
      (register ⟨"s2@x.com", " Bob ", "pass123", "student"⟩ 7 "k" db0).2.accounts
        = db0.accounts ++ [a]
      ∧ (register ⟨"s2@x.com", " Bob ", "pass123", "student"⟩ 7 "k" db0).2.students
        = db0.students ++
          [{ id := freshId (db0.students.map (fun s => s.id)),
             student_number := "s2@x.com", name := " Bob ".trim,
             email := some "s2@x.com", age := none, grade := none,
             created_at := 7, account_id := some a.id }] :=
  (register_student_row_creation ⟨"s2@x.com", " Bob ", "pass123", "student"⟩ 7 "k" db0
    (by decide) (by decide)).1 rfl

/-- C6: registering a contact that already has an account fails with 400
"Contact already registered" and leaves the store unchanged. -/
theorem register_duplicate_contact_conflict
    (data : UserRegister) (now : Nat) (secret : String) (db : DB)
    (hrole : data.role = "student" ∨ data.role = "teacher")
    (a : Account) (ha : a ∈ db.accounts) (hc : a.contact = data.contact) :
    register data now secret db = (.error ⟨400, "Contact already registered"⟩, db) := by
  have hrb : (data.role == "student" || data.role == "teacher") = true := by
    rcases hrole with h | h <;> simp [h]
  have hsome : (db.accounts.find? (fun x => x.contact == data.contact)).isSome :=
    List.find?_isSome.mpr ⟨a, ha, by simp [hc]⟩
  unfold register
  rw [hrb]
  simp [hsome]

/-- C6 witness: re-registering the stored contact fails with the conflict
error and the store is returned unchanged. -/
theorem register_duplicate_contact_conflict_witness :
    register ⟨"s1@x.com", "Ann Again", "pass456", "student"⟩ 7 "k" db0
      = (.error ⟨400, "Contact already registered"⟩, db0) :=
  register_duplicate_contact_conflict ⟨"s1@x.com", "Ann Again", "pass456", "student"⟩
    7 "k" db0 (Or.inl rfl) studAcct (by decide) rfl

/-- C7: for updates and deletes of students, exams and results, a missing
target yields 404 whatever the caller's role, and an existing target with an
insufficient role yields 403 — so existence is checked before permission. -/
theorem mutating_ops_existence_then_permission
    (u : Account) (db : DB) (sid eid rid : Nat)
    (sIn : StudentCreate) (eIn : ExamCreate) (rIn : ResultCreate) :
    (db.students.find? (fun s => s.id == sid) = none →
      update_student u sid sIn db = .error ⟨404, "Student not found"⟩
      ∧ delete_student u sid db = .error ⟨404, "Student not found"⟩)
    ∧ (db.exams.find? (fun e => e.id == eid) = none →
      update_exam u eid eIn db = .error ⟨404, "Exam not found"⟩
      ∧ delete_exam u eid db = .error ⟨404, "Exam not found"⟩)
    ∧ (db.results.find? (fun r => r.id == rid) = none →
      update_result u rid rIn db = .error ⟨404, "Result not found"⟩
      ∧ delete_result u rid db = .error ⟨404, "Result not found"⟩)
    ∧ ((["admin", "teacher"].contains u.role) = false →
      ((db.students.find? (fun s => s.id == sid)).isSome →
        update_student u sid sIn db = .error ⟨403, "No permission"⟩
        ∧ delete_student u sid db = .error ⟨403, "No permission"⟩)
      ∧ ((db.exams.find? (fun e => e.id == eid)).isSome →
        update_exam u eid eIn db = .error ⟨403, "No permission"⟩
        ∧ delete_exam u eid db = .error ⟨403, "No permission"⟩)
      ∧ ((db.results.find? (fun r => r.id == rid)).isSome →
        update_result u rid rIn db = .error ⟨403, "No permission"⟩
        ∧ delete_result u rid db = .error ⟨403, "No permission"⟩)) := by
  refine ⟨fun h => ⟨?_, ?_⟩, fun h => ⟨?_, ?_⟩, fun h => ⟨?_, ?_⟩, fun hrole => ?_⟩
  · simp [update_student, h]
  · simp [delete_student, h]
  · simp [update_exam, h]
  · simp [delete_exam, h]
  · simp [update_result, h]
  · simp [delete_result, h]
  · refine ⟨fun h => ?_, fun h => ?_, fun h => ?_⟩ <;>
      obtain ⟨x, hx⟩ := Option.isSome_iff_exists.mp h
    · exact ⟨by unfold update_student; rw [hx, hrole]; rfl,
             by unfold delete_student; rw [hx, hrole]; rfl⟩
    · exact ⟨by unfold update_exam; rw [hx, hrole]; rfl,
             by unfold delete_exam; rw [hx, hrole]; rfl⟩
    · exact ⟨by unfold update_result; rw [hx, hrole]; rfl,
             by unfold delete_result; rw [hx, hrole]; rfl⟩

/-- C7 witness: against the concrete store, missing targets give 404 to a
student-role caller and existing targets give that caller 403. -/
theorem mutating_ops_existence_then_permission_witness :
    (update_student studAcct 42 sIn0 db0 = .error ⟨404, "Student not found"⟩
      ∧ delete_student studAcct 42 db0 = .error ⟨404, "Student not found"⟩)
    ∧ (update_exam studAcct 42 eIn0 db0 = .error ⟨404, "Exam not found"⟩
      ∧ delete_exam studAcct 42 db0 = .error ⟨404, "Exam not found"⟩)
    ∧ (update_result studAcct 42 rIn0 db0 = .error ⟨404, "Result not found"⟩
      ∧ delete_result studAcct 42 db0 = .error ⟨404, "Result not found"⟩)
    ∧ (update_student studAcct 1 sIn0 db0 = .error ⟨403, "No permission"⟩
      ∧ delete_student studAcct 1 db0 = .error ⟨403, "No permission"⟩) := by
  have h42 := mutating_ops_existence_then_permission studAcct db0 42 42 42 sIn0 eIn0 rIn0
  have h1 := mutating_ops_existence_then_permission studAcct db0 1 1 1 sIn0 eIn0 rIn0
  exact ⟨h42.1 (by decide), h42.2.1 (by decide), h42.2.2.1 (by decide),
    (h1.2.2.2 (by decide)).1 (by decide)⟩

/-- C8: a result create or update by an admin or teacher checks the
referenced student before the referenced exam: a missing student id yields
404 "Student not found" (even when the exam id is also missing), and an
existing student with a missing exam id yields 404 "Exam not found". -/
theorem result_write_student_checked_before_exam
    (u : Account) (db : DB) (rIn : ResultCreate) (now rid : Nat) (r : Result)
    (hrole : (["admin", "teacher"].contains u.role) = true)
    (hr : db.results.find? (fun t => t.id == rid) = some r) :
    (db.students.find? (fun s => s.id == rIn.student_id) = none →
      add_result u rIn now db = .error ⟨404, "Student not found"⟩
      ∧ update_result u rid rIn db = .error ⟨404, "Student not found"⟩)
    ∧ ∀ student,
        db.students.find? (fun s => s.id == rIn.student_id) = some student →
        db.exams.find? (fun e => e.id == rIn.exam_id) = none →
        add_result u rIn now db = .error ⟨404, "Exam not found"⟩
        ∧ update_result u rid rIn db = .error ⟨404, "Exam not found"⟩ := by
  constructor
  · intro hstu
    exact ⟨by unfold add_result; rw [hrole]; simp [hstu],
           by unfold update_result; rw [hr, hrole]; simp [hstu]⟩
  · intro student hstu hexam
    exact ⟨by unfold add_result; rw [hrole]; simp [hstu, hexam],
           by unfold update_result; rw [hr, hrole]; simp [hstu, hexam]⟩

/-- C8 witness: a teacher writing a result for a missing student id 9 gets
"Student not found"; with the stored student 1 but missing exam 9 the same
write gets "Exam not found". -/
theorem result_write_student_checked_before_exam_witness :
    (add_result teachAcct ⟨9, 9, 75⟩ 5 db0 = .error ⟨404, "Student not found"⟩
      ∧ update_result teachAcct 1 ⟨9, 9, 75⟩ db0 = .error ⟨404, "Student not found"⟩)
    ∧ (add_result teachAcct ⟨1, 9, 75⟩ 5 db0 = .error ⟨404, "Exam not found"⟩
      ∧ update_result teachAcct 1 ⟨1, 9, 75⟩ db0 = .error ⟨404, "Exam not found"⟩) := by
  have hmiss := result_write_student_checked_before_exam teachAcct db0 ⟨9, 9, 75⟩ 5 1
    res1 (by decide) (by decide)
  have hexam := result_write_student_checked_before_exam teachAcct db0 ⟨1, 9, 75⟩ 5 1
    res1 (by decide) (by decide)
  exact ⟨hmiss.1 (by decide), hexam.2 stud1 (by decide) (by decide)⟩

/-- C10: a successful student update rewrites exactly the StudentCreate
fields of the target row, preserves its id, account_id and created_at, and
leaves the accounts, exams, results and every other student row unchanged. -/
theorem update_student_frame
    (u : Account) (sid : Nat) (inp : StudentCreate) (db : DB) (s : Student)
    (hrole : (["admin", "teacher"].contains u.role) = true)
    (hs : db.students.find? (fun t => t.id == sid) = some s) :
    ∃ s2 db2, update_student u sid inp db = .ok (s2, db2)
      ∧ s2.id = s.id ∧ s2.account_id = s.account_id ∧ s2.created_at = s.created_at
      ∧ s2.student_number = inp.student_number ∧ s2.name = inp.name
      ∧ s2.email = inp.email ∧ s2.age = some inp.age ∧ s2.grade = inp.grade
      ∧ db2.accounts = db.accounts ∧ db2.exams = db.exams
      ∧ db2.results = db.results
      ∧ db2.students.length = db.students.length
      ∧ ∀ t ∈ db.students, t.id ≠ sid → t ∈ db2.students := by
  have h : update_student u sid inp db
      = .ok ((⟨s.id, inp.student_number, inp.name, inp.email, some inp.age,
               inp.grade, s.created_at, s.account_id⟩ : Student),
             ⟨db.accounts,
              db.students.map (fun t =>
                if t.id == sid then
                  ⟨s.id, inp.student_number, inp.name, inp.email, some inp.age,
                   inp.grade, s.created_at, s.account_id⟩
                else t),
              db.exams, db.results⟩) := by
    unfold update_student
    rw [hs, hrole]
    rfl
  refine ⟨_, _, h, rfl, rfl, rfl, rfl, rfl, rfl, rfl, rfl, rfl, rfl, rfl, ?_, ?_⟩
  · simp
  · intro t ht hne
    have hmap : (if t.id == sid then
        (⟨s.id, inp.student_number, inp.name, inp.email, some inp.age,
          inp.grade, s.created_at, s.account_id⟩ : Student)
        else t) = t := by
      simp [hne]
    exact hmap ▸ List.mem_map_of_mem _ ht

/-- C10 witness: updating the concrete student 1 as admin keeps its id, link
and creation time, rewrites the input fields, and leaves the other tables
untouched. -/
theorem update_student_frame_witness :
    ∃ s2 db2, update_student adminAcct 1 sIn0 db0 = .ok (s2, db2)
      ∧ s2.id = stud1.id ∧ s2.account_id = stud1.account_id
      ∧ s2.created_at = stud1.created_at
      ∧ s2.student_number = sIn0.student_number ∧ s2.name = sIn0.name
      ∧ s2.email = sIn0.email ∧ s2.age = some sIn0.age ∧ s2.grade = sIn0.grade
      ∧ db2.accounts = db0.accounts ∧ db2.exams = db0.exams
      ∧ db2.results = db0.results
      ∧ db2.students.length = db0.students.length
      ∧ ∀ t ∈ db0.students, t.id ≠ 1 → t ∈ db2.students :=
  update_student_frame adminAcct 1 sIn0 db0 stud1 (by decide) (by decide)

end Mani
